import Mathlib

/-!
Shallow embedding of the `cuneiform` ORM core (src/cuneiform.py) in Lean 4,
together with proofs settling the specification claims.

Modelling conventions:
* Python runtime values that fields can hold are `PyVal`; `PyVal.inst`
  carries an object identity (`objId`), because `Model` defines no `__eq__`,
  so `==` between model instances is identity comparison in Python.
* A field's declared semantic type (`Field._type`) is `FieldType`.
* Python dicts keyed by field names are association lists in declaration
  order (Python 3.7+ dicts preserve insertion order).
* Python exceptions are modelled with `Except PyErr`.
* Python truthiness of `instance.id` (None or 0 are falsy) is `idTruthy`.
-/

namespace Cuneiform

/-- A runtime value a field can hold.  `enumMem e v` is the member of the
enumeration named `e` whose `.value` is `v`; `inst t i o` is a model
instance of the table `t` with identity `i` (`none` before first save) and
Python object identity `o`. -/
inductive PyVal where
  | none
  | int (n : Int)
  | str (s : String)
  | bool (b : Bool)
  | enumMem (enumName : String) (value : Int)
  | inst (table : String) (id : Option Int) (objId : Nat)
  deriving DecidableEq, Repr

/-- The declared semantic type of a field (`Field._type` in the source):
`int`, `str`, a subclass of `Enum` (with its member values), or a subclass
of `Model` (a foreign-key reference). -/
inductive FieldType where
  | tInt
  | tStr
  | tEnum (enumName : String) (memberValues : List Int)
  | tModel (table : String)
  deriving DecidableEq, Repr

/-- Embeds `isinstance(value, self._type)` for the types the ORM supports.
`isinstance(None, T)` is `False` for every such `T`. -/
def isinstance : PyVal → FieldType → Bool
  | .int _, .tInt => true
  | .str _, .tStr => true
  | .enumMem e _, .tEnum e' _ => e = e'
  | .inst t _ _, .tModel t' => t = t'
  | _, _ => false

/-- Python `==` between two `PyVal`s.  Structural for `None`, `int`, `str`,
`bool` and enum members; identity (`objId`) for model instances, since
`Model` defines no `__eq__`. -/
def pyEq : PyVal → PyVal → Bool
  | .none, .none => true
  | .int a, .int b => a = b
  | .str a, .str b => a = b
  | .bool a, .bool b => a = b
  | .enumMem e a, .enumMem e' b => e = e' && a = b
  | .inst _ _ o, .inst _ _ o' => o = o'
  | _, _ => false

/-- A Python exception raised by the embedded code. -/
inductive PyErr where
  | assertionError
  | typeErrorDictNotCallable
  | typeError
  | valueError (msg : String)
  | attributeError
  | keyError (key : String)
  | runtimeError (msg : String)
  deriving DecidableEq, Repr

/-- One field specification (`Field` in the source): its bound name, its
semantic type, and the options the claims depend on. -/
structure FieldSpec where
  name : String
  type : FieldType
  required : Bool := false
  virtual : Bool := false
  forward_name : Option String := none
  default : Option PyVal := none
  ownerTable : String := ""
  deriving DecidableEq, Repr

/-- The mutable per-instance state touched by `Field.__set__` and
`Model.save`: the `_values` dict (association list in insertion order),
`_dirty`, and `_initializing`. -/
structure InstState where
  values : List (String × PyVal)
  dirty : Bool
  initializing : Bool
  deriving DecidableEq, Repr

/-- Embeds `instance._values.get(name)` — `None` when the key is absent, as in
Python's `dict.get`. -/
def InstState.getValue (st : InstState) (name : String) : PyVal :=
  match st.values.lookup name with
  | some v => v
  | Option.none => PyVal.none

/-- Embeds `dict[name] = value` on an insertion-ordered dict: overwrite in place if
the key exists, else append. -/
def dictSet : List (String × PyVal) → String → PyVal → List (String × PyVal)
  | [], k, v => [(k, v)]
  | (k', v') :: rest, k, v =>
      if k' = k then (k', v) :: rest else (k', v') :: dictSet rest k v

/-- Python truthiness of `instance.id`: the stored `id` value, if any, is
truthy unless it is `None` or `0`. -/
def InstState.idTruthy (st : InstState) : Bool :=
  match st.values.lookup "id" with
  | some (.int n) => n ≠ 0
  | some .none => false
  | some _ => true
  | Option.none => false

/-- Embeds `Field.__set__(self, instance, value)` (src/cuneiform.py lines 404-417):
no-op when `value == instance._values.get(self._name)`; then
`assert isinstance(value, self._type)`; then store; then mark dirty unless
`instance.id` is truthy and `instance._initializing`. -/
def fieldSet (f : FieldSpec) (st : InstState) (value : PyVal) :
    Except PyErr InstState :=
  if pyEq value (st.getValue f.name) then
    Except.ok st
  else if !isinstance value f.type then
    Except.error .assertionError
  else
    let st := { st with values := dictSet st.values f.name value }
    if st.idTruthy then
      if st.initializing then
        Except.ok st
      else
        Except.ok { st with dirty := true }
    else
      Except.ok { st with dirty := true }

/-! ### Storage marshalling (`Field.from_sql` / `Field.to_sql`)

Both functions exchange plain Python values with the database driver
(`None`, `int`, `str`), so both sides of the marshalling boundary are
`PyVal`. -/

/-- Embeds `Field.from_sql(self, sql)` (src/cuneiform.py lines 361-370):
`None` (SQL NULL) passes through; for `str`/`int` fields the raw value
passes through unchanged (no check); for a `Model`-typed field,
`self._type.get(sql)` is a point-load of the referenced type by that id
(the hydrated contents are a database effect; the result is modelled as an
instance carrying that identity — a non-integer id makes the underlying
SELECT fail); for an `Enum`-typed field, `self._type(sql)` reconstructs
the member by value and raises `ValueError` when no member has it. -/
def fieldFromSql (t : FieldType) (v : PyVal) : Except PyErr PyVal :=
  match v with
  | .none => .ok .none
  | _ =>
    match t with
    | .tInt => .ok v
    | .tStr => .ok v
    | .tModel table =>
        match v with
        | .int n => .ok (.inst table (some n) 0)
        | _ => .error .typeError
    | .tEnum e vals =>
        match v with
        | .int n =>
            if n ∈ vals then .ok (.enumMem e n)
            else .error (.valueError "not a valid member")
        | _ => .error (.valueError "not a valid member")

/-- Embeds `Field.to_sql(self, value)` with an explicit value
(src/cuneiform.py lines 372-387): `None` → NULL; `str` field → the value
unchanged; `Enum` field → `value.value` (`AttributeError` when the value
is not an enum member); `Model` field → assert the value is an instance of
the referenced type, cascade `value.save()` (a database effect, after
which the instance's identity is set — we return the identity the
instance carries), then `value.id`; `int` field → the value unchanged. -/
def fieldToSql (t : FieldType) (v : PyVal) : Except PyErr PyVal :=
  match v with
  | .none => .ok .none
  | _ =>
    match t with
    | .tStr => .ok v
    | .tEnum _ _ =>
        match v with
        | .enumMem _ n => .ok (.int n)
        | _ => .error .attributeError
    | .tModel _table =>
        if isinstance v t then
          match v with
          | .inst _ (some n) _ => .ok (.int n)
          | .inst _ Option.none _ => .ok .none
          | _ => .error .assertionError
        else .error .assertionError
    | .tInt => .ok v

/-- Holds when `v` is a value of field type `t` in the strong sense: `None`, or an
`isinstance` of `t` whose enum value (when applicable) is one of the
type's member values. -/
def wellTyped : PyVal → FieldType → Bool
  | .none, _ => true
  | .int _, .tInt => true
  | .str _, .tStr => true
  | .enumMem e n, .tEnum e' vals => e = e' && n ∈ vals
  | _, _ => false

/-! ### Expression AST and the query compiler -/

/-- One foreign-key hop, in the source's tuple order
`(source table, foreign table, source column, foreign column)`; the
compiled JOIN clause reads
`JOIN foreign ON foreign.foreignColumn = source.sourceColumn`. -/
structure JoinEdge where
  source : String
  foreign : String
  sourceColumn : String
  foreignColumn : String
  deriving DecidableEq, Repr

mutual
/-- An `Expression` node (src/cuneiform.py class `Expression`): an operator
tag with its operand list, or a `join`-tagged node whose first operand is
the accumulated JoinEdge list and whose last operand is the trailing
field/expression. -/
inductive Expr where
  | node (op : String) (operands : List Operand)
  | join (edges : List JoinEdge) (tail : Operand)

/-- An operand of an `Expression`: a nested Expression, a Field, or a
literal value. -/
inductive Operand where
  | expr (e : Expr)
  | field (f : FieldSpec)
  | lit (v : PyVal)
end

/-- The literal-to-parameter conversion in `Expression.to_sql`
(src/cuneiform.py lines 559-563): an `Enum` literal becomes its `.value`,
a `Model` instance literal becomes its `.id`; anything else is passed as
is. -/
def litToParam : PyVal → PyVal
  | .enumMem _ n => .int n
  | .inst _ (some n) _ => .int n
  | .inst _ Option.none _ => .none
  | v => v

/-- Embeds `Field.to_sql()` called with no value, i.e. in query context
(src/cuneiform.py lines 372-374): the qualified column reference. -/
def FieldSpec.columnRef (f : FieldSpec) : String :=
  f.ownerTable ++ "." ++ f.name

mutual
/-- Embeds `Expression.to_sql` (src/cuneiform.py lines 534-572).  A `join` node
threads its accumulated edges untouched and delegates the trailing operand;
any other node compiles its operands left-to-right and then assembles the
fragment by arity (1 or 2; more is a `RuntimeError`). -/
def Expr.to_sql : Expr → Except PyErr (String × List PyVal × List JoinEdge)
  | .join edges tail =>
      match tail with
      | .expr e => do
          let (s, lits, innerJoins) ← e.to_sql
          .ok (s, lits, edges ++ innerJoins)
      | .field f => .ok (f.columnRef, [], edges)
      | .lit _ => .error .attributeError
  | .node op operands => do
      let (frags, lits, joins) ← compileOperands operands
      match frags with
      | [a] => .ok (op ++ " " ++ a, lits, joins)
      | [a, b] => .ok (a ++ " " ++ op ++ " " ++ b, lits, joins)
      | _ => .error (.runtimeError "can't have more than 2 operands")

/-- One iteration of the operand loop in `Expression.to_sql`: a nested
Expression compiles recursively, a Field compiles to its qualified column
reference, and any other operand is a literal appended to the parameter
list and replaced by the `%s` placeholder. -/
def compileOperand : Operand → Except PyErr (String × List PyVal × List JoinEdge)
  | .expr e => e.to_sql
  | .field f => .ok (f.columnRef, [], [])
  | .lit v => .ok ("%s", [litToParam v], [])

/-- The operand loop of `Expression.to_sql`: compile each operand
left-to-right, concatenating the literal and join lists in traversal
order. -/
def compileOperands :
    List Operand → Except PyErr (List String × List PyVal × List JoinEdge)
  | [] => .ok ([], [], [])
  | o :: rest => do
      let (s, l, j) ← compileOperand o
      let (ss, ls, js) ← compileOperands rest
      .ok (s :: ss, l ++ ls, j ++ js)
end

/-! ### Attribute-style join traversal (`Field.__getattr__`,
`Expression.__getattr__`) -/

/-- A declared record type: its derived table name and its `_fields` dict
in insertion order (declared fields, then the synthesized `id`, then any
virtual reverse fields installed by later declarations). -/
structure ModelClass where
  tableName : String
  fields : List FieldSpec

/-- Embeds `getattr(cls, attr)` on a model class: look up the Field descriptor
declared under that name; absent names raise `AttributeError`. -/
def ModelClass.getField (cls : ModelClass) (attr : String) :
    Except PyErr FieldSpec :=
  match cls.fields.find? (fun f => f.name = attr) with
  | some f => .ok f
  | Option.none => .error .attributeError

/-- The JoinEdge built by both `__getattr__`s (src/cuneiform.py lines
469-475 and 496-501): forward fields hop `(owner, target, column, id)`;
virtual fields hop `(owner, target, id, forward_name)`. -/
def edgeOf (f : FieldSpec) (targetTable : String) : JoinEdge :=
  { source := f.ownerTable
    foreign := targetTable
    sourceColumn := if !f.virtual then f.name else "id"
    foreignColumn := if !f.virtual then "id" else f.forward_name.getD "" }

/-- Embeds `Field.__getattr__(self, attr)` (src/cuneiform.py lines 463-479): only
`Model`-typed fields can be traversed; the result is a `join` Expression
seeded with one JoinEdge and wrapping the referenced type's FieldSpec for
`attr`.  `registry` resolves a table name to its declared class. -/
def fieldGetattr (registry : String → Option ModelClass) (f : FieldSpec)
    (attr : String) : Except PyErr Expr :=
  match f.type with
  | .tModel table =>
      match registry table with
      | some cls => do
          let g ← cls.getField attr
          .ok (.join [edgeOf f table] (.field g))
      | Option.none => .error .attributeError
  | _ => .error .attributeError

/-- Embeds `Expression.__getattr__(self, attr)` (src/cuneiform.py lines 487-505):
only a `join` node whose trailing operand is a `Model`-typed FieldSpec can
be extended; the new node appends one JoinEdge for that field and wraps
the next FieldSpec. -/
def exprGetattr (registry : String → Option ModelClass) (e : Expr)
    (attr : String) : Except PyErr Expr :=
  match e with
  | .join edges (.field f) =>
      match f.type with
      | .tModel table =>
          match registry table with
          | some cls => do
              let g ← cls.getField attr
              .ok (.join (edges ++ [edgeOf f table]) (.field g))
          | Option.none => .error .attributeError
      | _ => .error .attributeError
  | _ => .error .attributeError

/-! ### The demo schema (src/models.py): Town, Address, Customer -/

/-- The field `Town.name = cf.Field(str)` bound to the `town` table. -/
def townNameField : FieldSpec :=
  { name := "name", type := .tStr, ownerTable := "town" }

/-- The synthesized `id` field of a table. -/
def idField (table : String) : FieldSpec :=
  { name := "id", type := .tInt, required := true, ownerTable := table }

/-- The virtual reverse field installed on Town when Address declares its
`town` foreign key (`Model.install_inverse`). -/
def townAddressesField : FieldSpec :=
  { name := "addresses", type := .tModel "address", virtual := true
    forward_name := some "town", ownerTable := "town" }

/-- The class `Town(cf.Model)` from src/models.py. -/
def TownClass : ModelClass :=
  { tableName := "town"
    fields := [townNameField, idField "town", townAddressesField] }

/-- The field `Address.street = cf.Field(str)`. -/
def addressStreetField : FieldSpec :=
  { name := "street", type := .tStr, ownerTable := "address" }

/-- The field `Address.house_number = cf.Field(int)`. -/
def addressHouseNumberField : FieldSpec :=
  { name := "house_number", type := .tInt, ownerTable := "address" }

/-- The field `Address.post_code = cf.Field(str, min_length=5, max_length=5)`. -/
def addressPostCodeField : FieldSpec :=
  { name := "post_code", type := .tStr, ownerTable := "address" }

/-- The field `Address.town = cf.Field(Town)`: the forward foreign key to Town. -/
def addressTownField : FieldSpec :=
  { name := "town", type := .tModel "town", ownerTable := "address" }

/-- The virtual reverse field installed on Address when Customer declares
its `addr` foreign key. -/
def addressCustomersField : FieldSpec :=
  { name := "customers", type := .tModel "customer", virtual := true
    forward_name := some "addr", ownerTable := "address" }

/-- The class `Address(cf.Model)` from src/models.py. -/
def AddressClass : ModelClass :=
  { tableName := "address"
    fields := [addressStreetField, addressHouseNumberField,
               addressPostCodeField, addressTownField, idField "address",
               addressCustomersField] }

/-- The field `Customer.name = cf.Field(str)`. -/
def customerNameField : FieldSpec :=
  { name := "name", type := .tStr, ownerTable := "customer" }

/-- The field `Customer.type = cf.Field(CompanyType, default=None)`: CompanyType has
members GmbH=1, AG=2, KG=3, other=4. -/
def customerTypeField : FieldSpec :=
  { name := "type", type := .tEnum "CompanyType" [1, 2, 3, 4]
    default := some .none, ownerTable := "customer" }

/-- The field `Customer.addr = cf.Field(Address, default=None)`: the forward foreign
key to Address. -/
def customerAddrField : FieldSpec :=
  { name := "addr", type := .tModel "address", default := some .none
    ownerTable := "customer" }

/-- The class `Customer(cf.Model)` from src/models.py. -/
def CustomerClass : ModelClass :=
  { tableName := "customer"
    fields := [customerNameField, customerTypeField, customerAddrField,
               idField "customer"] }

/-- The registry of declared record types of src/models.py, keyed by
derived table name. -/
def demoRegistry : String → Option ModelClass
  | "town" => some TownClass
  | "address" => some AddressClass
  | "customer" => some CustomerClass
  | _ => Option.none

/-! ### `Model.save` (src/cuneiform.py lines 171-224) -/

/-- What a call to `save()` did: nothing (not dirty), an UPDATE with its
SET assignment fragments and bound parameters, or an INSERT with its
column list and bound parameters.  The returned `InstState` is the
instance's state after the call. -/
inductive SaveOutcome where
  | noStatement (st : InstState)
  | updated (assignments : List String) (params : List PyVal) (st : InstState)
  | inserted (columns : List String) (params : List PyVal) (st : InstState)
  deriving DecidableEq, Repr

/-- The `assignments` list comprehension of the UPDATE path
(src/cuneiform.py lines 175-180).  Its filter is
`key != "id" and self._values.get(key, missing) is not missing and not
self._fields[key]._options("virtual")`: for the first key that passes the
first two conjuncts, the third conjunct calls `_options` — a dict, which
is not callable — raising `TypeError: 'dict' object is not callable`. -/
def buildUpdateAssignments (fields : List FieldSpec) (st : InstState) :
    Except PyErr (List String) :=
  match fields with
  | [] => .ok []
  | f :: rest =>
      if f.name ≠ "id" ∧ (st.values.lookup f.name).isSome then
        .error .typeErrorDictNotCallable
      else
        buildUpdateAssignments rest st

/-- The bound-parameter generator of the UPDATE path (src/cuneiform.py
lines 187-195): `v.to_sql(self._values[k])` for every non-`id`,
explicitly-set, non-virtual field, in `_fields` order.  (This generator
correctly uses `_options.get("virtual")`.) -/
def buildUpdateParams (fields : List FieldSpec) (st : InstState) :
    Except PyErr (List PyVal) :=
  match fields with
  | [] => .ok []
  | f :: rest =>
      if f.name ≠ "id" ∧ (st.values.lookup f.name).isSome ∧ ¬f.virtual then do
        let v ← fieldToSql f.type (st.getValue f.name)
        let rest' ← buildUpdateParams rest st
        .ok (v :: rest')
      else
        buildUpdateParams rest st

/-- The column/value accumulation of the INSERT path (src/cuneiform.py
lines 198-210): skip `id` and virtual fields; use the explicitly-set value
if present, else the declared default, else raise
`ValueError("No value for {k} set and no default present")`. -/
def buildInsertColumns (fields : List FieldSpec) (st : InstState) :
    Except PyErr (List String × List PyVal) :=
  match fields with
  | [] => .ok ([], [])
  | f :: rest =>
      if f.name = "id" ∨ f.virtual then
        buildInsertColumns rest st
      else do
        let v ←
          match st.values.lookup f.name with
          | some value => fieldToSql f.type value
          | Option.none =>
              match f.default with
              | some d => fieldToSql f.type d
              | Option.none =>
                  .error (.valueError
                    ("No value for " ++ f.name ++ " set and no default present"))
        let (cols, vals) ← buildInsertColumns rest st
        .ok (f.name :: cols, v :: vals)

/-- Reads `self.id` as a bound parameter (the raw stored value). -/
def InstState.idValue (st : InstState) : PyVal := st.getValue "id"

/-- Embeds `Model.save(self)` (src/cuneiform.py lines 171-224).  `fields` is the
model's `_fields` dict in order; `freshId` is the id the database returns
from `INSERT ... RETURNING id`.  Not dirty → no statement.  Identity
truthy → UPDATE: build the SET assignments (which raises `TypeError`, see
`buildUpdateAssignments`), then bind the marshalled set values followed by
`self.id`, then clear `dirty`.  No identity → INSERT: resolve each
non-virtual, non-`id` column to its set value or default, store the
returned id directly into `_values` (bypassing `Field.__set__`), then
clear `dirty`. -/
def modelSave (fields : List FieldSpec) (st : InstState) (freshId : Int) :
    Except PyErr SaveOutcome :=
  if !st.dirty then
    .ok (.noStatement st)
  else if st.idTruthy then do
    let assignments ← buildUpdateAssignments fields st
    let params ← buildUpdateParams fields st
    .ok (.updated assignments (params ++ [st.idValue]) { st with dirty := false })
  else do
    let (columns, values) ← buildInsertColumns fields st
    .ok (.inserted columns values
      { st with values := dictSet st.values "id" (.int freshId), dirty := false })

/-! ### Schema snapshots and migration
(`Model.get_state`, `Model.migrate`, `Model.ensure_db_state`) -/

/-- The per-field part of a persisted snapshot (`Model.get_state`): the
storage column type and the option map. -/
structure FieldState where
  type : String
  options : List (String × PyVal)
  deriving DecidableEq, Repr

/-- A persisted `SchemaState` snapshot (src/cuneiform.py lines 93-109):
`fields` maps each non-virtual field name to its storage type and options;
`foreign_keys` maps each `Model`-typed non-virtual field name to the
referenced table name. -/
structure SchemaState where
  fields : List (String × FieldState)
  foreign_keys : List (String × String)
  deriving DecidableEq, Repr

/-- One DDL statement emitted by `Model.migrate`:
`ALTER TABLE t DROP COLUMN f;`, `ALTER TABLE t ADD COLUMN f type;`, or the
`DROP CONSTRAINT IF EXISTS fk_f; ADD CONSTRAINT fk_f FOREIGN KEY (f)
REFERENCES ref(id);` pair. -/
inductive Instruction where
  | dropColumn (table field : String)
  | addColumn (table field ftype : String)
  | addForeignKey (table field refTable : String)
  deriving DecidableEq, Repr

/-- Embeds `Model.migrate(old_state, new_state)` (src/cuneiform.py lines
131-152): iterate over the set `{*old_state["fields"],
*new_state["fields"]}` of field names (CPython's set iteration order is
unspecified; the claims below are order-insensitive, and the embedding
fixes old-then-new first-occurrence order); a name absent from the new
state emits DROP COLUMN, a name absent from the old state emits ADD COLUMN
plus its foreign-key constraint when the new state lists one.  Names
present in both emit nothing.  `migrateField` is one iteration of that
loop, the per-name instruction block. -/
def migrateField (table : String) (old new : SchemaState) (field : String) :
    List Instruction :=
  (if (new.fields.lookup field).isNone then
    [Instruction.dropColumn table field]
  else []) ++
  (if (old.fields.lookup field).isNone then
    [Instruction.addColumn table field
      (match new.fields.lookup field with
       | some fs => fs.type
       | Option.none => "")] ++
    (match new.foreign_keys.lookup field with
     | some ref => [Instruction.addForeignKey table field ref]
     | Option.none => [])
  else [])

/-- The full instruction batch of one `Model.migrate` run: the loop over
the union of field names. -/
def migrate (table : String) (old new : SchemaState) : List Instruction :=
  ((old.fields.map Prod.fst) ++ (new.fields.map Prod.fst)).dedup.flatMap
    (migrateField table old new)

/-- One database-level action performed by the synchronizer. -/
inductive DbAction where
  | dropTableIfExistsCascade (table : String)
  | createTableIfNotExists (table : String) (columns : List (String × String))
  | addConstraint (table field refTable : String)
  | execMigration (instructions : List Instruction)
  deriving DecidableEq, Repr

/-- Embeds `Model.create()` (src/cuneiform.py lines 111-129): CREATE TABLE IF NOT
EXISTS with one `name type` column per snapshot field, then one
DROP-CONSTRAINT-IF-EXISTS/ADD-CONSTRAINT pair per foreign key. -/
def createActions (table : String) (state : SchemaState) : List DbAction :=
  DbAction.createTableIfNotExists table
      (state.fields.map (fun nf => (nf.1, nf.2.type)))
    :: state.foreign_keys.map (fun fk => DbAction.addConstraint table fk.1 fk.2)

/-- The outcome of one `ensure_db_state` run: the database actions it
performed, in order, and the snapshot it wrote (`none` on the early
nothing-to-do return, which skips the write). -/
structure EnsureResult where
  actions : List DbAction
  savedSnapshot : Option SchemaState
  deriving DecidableEq, Repr

/-- Embeds `Model.ensure_db_state()` (src/cuneiform.py lines 73-90).
`oldSnapshot` is the persisted snapshot read from
`db_state/<table>.json`, `none` when the file does not exist.  Present and
equal → early return, nothing executed, snapshot not rewritten.  Present
and different → execute the migration batch and rewrite the snapshot.
Absent → `cls.drop()` (DROP TABLE IF EXISTS ... CASCADE), then
`cls.create()`, then write the snapshot. -/
def ensure_db_state (table : String) (oldSnapshot : Option SchemaState)
    (newState : SchemaState) : EnsureResult :=
  match oldSnapshot with
  | some old =>
      if old = newState then
        { actions := [], savedSnapshot := Option.none }
      else
        { actions := [DbAction.execMigration (migrate table old newState)]
          savedSnapshot := some newState }
  | Option.none =>
      { actions := DbAction.dropTableIfExistsCascade table
          :: createActions table newState
        savedSnapshot := some newState }

/-! ### RecordSet (src/cuneiform.py lines 231-349)

`__iter__`, `__len__` and `update` all compile their clauses through
`_resolve_where` and hand the statement to the database.  The database
engine itself (PostgreSQL via psycopg2) is an external collaborator; its
SELECT semantics over the compiled clauses is modelled below: a table is a
list of rows, a JOIN clause is a nested-loop equijoin, the WHERE fragment
means the evaluation of the predicate AST it was compiled from, ORDER BY
permutes the matched rows, and LIMIT truncates them. -/

/-- One stored row: column name → driver-level value (the `id` column
included). -/
structure Row where
  cells : List (String × PyVal)
  deriving DecidableEq, Repr

/-- A row of a (possibly joined) result: table name → that table's row. -/
def JoinedRow := List (String × Row)
  deriving DecidableEq, Repr

/-- The database: a list of rows per table name. -/
structure Database where
  tables : String → List Row

/-- The value of `table.column` in a joined row, `none` when the table is
not part of the join or the column is absent. -/
def getQualified (jr : JoinedRow) (table col : String) : Option PyVal :=
  match List.lookup table jr with
  | some r => r.cells.lookup col
  | Option.none => Option.none

/-- Modelled engine semantics of one compiled
`JOIN foreign ON foreign.foreignColumn = source.sourceColumn` clause:
nested-loop equijoin (NULLs never match). -/
def applyJoin (db : Database) (acc : List JoinedRow) (e : JoinEdge) :
    List JoinedRow :=
  acc.flatMap fun jr =>
    (db.tables e.foreign).filterMap fun s =>
      match getQualified jr e.source e.sourceColumn,
            s.cells.lookup e.foreignColumn with
      | some a, some b =>
          if a ≠ .none ∧ b ≠ .none ∧ a = b then some ((e.foreign, s) :: jr)
          else Option.none
      | _, _ => Option.none

/-- SQL comparison of two driver-level values; comparisons involving NULL
or mismatched types are not satisfied. -/
def applyCmp (op : String) (a b : PyVal) : Bool :=
  let ord : Option Ordering :=
    match a, b with
    | .int x, .int y => some (compare x y)
    | .str x, .str y => some (compare x y)
    | .bool x, .bool y => some (compare x y)
    | _, _ => Option.none
  match ord with
  | some o =>
      if op = "=" then o = Ordering.eq
      else if op = "!=" then o ≠ Ordering.eq
      else if op = "<" then o = Ordering.lt
      else if op = ">" then o = Ordering.gt
      else if op = "<=" then o ≠ Ordering.gt
      else if op = ">=" then o ≠ Ordering.lt
      else false
  | Option.none => false

mutual
/-- Modelled engine semantics of a compiled comparison operand: a Field
fragment reads its qualified column, a literal fragment is its bound
parameter, a join fragment reads the qualified column of its trailing
field. -/
def evalOperandVal (o : Operand) (jr : JoinedRow) : Option PyVal :=
  match o with
  | .field f => getQualified jr f.ownerTable f.name
  | .lit v => some (litToParam v)
  | .expr (.join _ (.field f)) => getQualified jr f.ownerTable f.name
  | .expr _ => Option.none

/-- Modelled engine semantics of a compiled predicate fragment over one
joined row. -/
def evalExpr (e : Expr) (jr : JoinedRow) : Bool :=
  match e with
  | .node op [a, b] =>
      if op = "AND" then evalOperandBool a jr && evalOperandBool b jr
      else if op = "OR" then evalOperandBool a jr || evalOperandBool b jr
      else
        match evalOperandVal a jr, evalOperandVal b jr with
        | some x, some y => applyCmp op x y
        | _, _ => false
  | .node _ _ => false
  | .join _ (.expr inner) => evalExpr inner jr
  | .join _ _ => false

/-- A nested boolean operand is its sub-predicate's truth value. -/
def evalOperandBool (o : Operand) (jr : JoinedRow) : Bool :=
  match o with
  | .expr e => evalExpr e jr
  | _ => false
end

/-- A `RecordSet(model_class, where, limit, order_by)`
(src/cuneiform.py lines 231-236), carrying the model's table name. -/
structure RecordSet where
  tableName : String
  whereExpr : Option Expr := Option.none
  limit : Option Nat := Option.none
  order_by : Option String := Option.none

/-- Embeds `RecordSet._resolve_where` (src/cuneiform.py lines 241-254): no
predicate → empty WHERE and JOIN clauses and no literals; otherwise
compile the predicate to its fragment, literals and join edges. -/
def resolveWhere (rs : RecordSet) :
    Except PyErr (Option Expr × List JoinEdge × List PyVal) :=
  match rs.whereExpr with
  | some w => do
      let (_whereSql, literals, joins) ← w.to_sql
      .ok (some w, joins, literals)
  | Option.none => .ok (Option.none, [], [])

/-- Python truthiness of `self.limit` (`if self.limit`): absent or `0` is
falsy, so no LIMIT clause is emitted for a zero limit. -/
def limitTruthy : Option Nat → Bool
  | some n => n ≠ 0
  | Option.none => false

/-- Insert into a list sorted by a boolean `le`. -/
def insertSorted (le : α → α → Bool) (x : α) : List α → List α
  | [] => [x]
  | y :: ys => if le x y then x :: y :: ys else y :: insertSorted le x ys

/-- Insertion sort by a boolean `le`. -/
def sortByLe (le : α → α → Bool) : List α → List α
  | [] => []
  | x :: xs => insertSorted le x (sortByLe le xs)

/-- Modelled engine semantics of the ORDER BY clause: a reordering of the
matched rows (here: stable sort by the base row's `id`; the engine's
actual comparator follows the interpolated ORDER BY token, and every
ordering yields the same cardinality). -/
def orderRows (baseTable : String) (rows : List JoinedRow) : List JoinedRow :=
  sortByLe
    (fun a b =>
      match getQualified a baseTable "id", getQualified b baseTable "id" with
      | some (.int x), some (.int y) => x ≤ y
      | _, _ => true)
    rows

/-- The rows satisfying the RecordSet's compiled JOIN and WHERE clauses:
the part of the executed query shared verbatim by `__iter__`, `__len__`,
`update` and `delete` (all four interpolate the same `join_expression` and
`where_expression` from `_resolve_where`). -/
def rsMatching (db : Database) (rs : RecordSet) :
    Except PyErr (List JoinedRow) := do
  let (w, joins, _literals) ← resolveWhere rs
  let base := (db.tables rs.tableName).map (fun r => [(rs.tableName, r)])
  let joined := joins.foldl (applyJoin db) base
  .ok (match w with
       | some e => joined.filter (evalExpr e)
       | Option.none => joined)

/-- Embeds `RecordSet.__len__` (src/cuneiform.py lines 336-349):
`SELECT COUNT(*) FROM table <join> <where>` — no ORDER BY and no LIMIT
clause is emitted. -/
def rsLen (db : Database) (rs : RecordSet) : Except PyErr Nat := do
  let rows ← rsMatching db rs
  .ok rows.length

/-- Embeds `RecordSet.__iter__` (src/cuneiform.py lines 256-277):
`SELECT table.id FROM table <join> <where> <order by> <limit>`, then one
point-load (`model_class.get`) per returned id — the list of returned ids
is the list of Instances the iteration yields, one per id. -/
def rsIterIds (db : Database) (rs : RecordSet) : Except PyErr (List PyVal) := do
  let rows ← rsMatching db rs
  let rows := match rs.order_by with
    | some _ => orderRows rs.tableName rows
    | Option.none => rows
  let rows := if limitTruthy rs.limit then rows.take (rs.limit.getD 0) else rows
  .ok (rows.map (fun jr => (getQualified jr rs.tableName "id").getD .none))

/-- The statement issued by a successful `RecordSet.update`. -/
inductive UpdateOutcome where
  | executed (assignments : List String) (params : List PyVal)
  deriving Repr

/-- Marshals `self.model_class._fields[key].to_sql(value)` per kwarg, in
order; an unknown field name raises `KeyError`
(src/cuneiform.py lines 328-330). -/
def marshalKwargs (fields : List FieldSpec) :
    List (String × PyVal) → Except PyErr (List PyVal)
  | [] => .ok []
  | (k, v) :: rest => do
      let f ← match fields.find? (fun f => f.name = k) with
        | some f => Except.ok f
        | Option.none => Except.error (.keyError k)
      let p ← fieldToSql f.type v
      let ps ← marshalKwargs fields rest
      .ok (p :: ps)

/-- Embeds `RecordSet.update(**kwargs)` (src/cuneiform.py lines 305-334):
resolve the WHERE/JOIN clause, `assert "id" not in kwargs`, build one
`table.key=%s` assignment per kwarg, marshal each kwarg value through its
field's `to_sql`, and execute with the marshalled values followed by the
WHERE literals. -/
def rsUpdate (rs : RecordSet) (fields : List FieldSpec)
    (kwargs : List (String × PyVal)) : Except PyErr UpdateOutcome := do
  let (_w, _joins, literals) ← resolveWhere rs
  if (kwargs.lookup "id").isSome then
    .error .assertionError
  else do
    let assignments := kwargs.map
      (fun kv => rs.tableName ++ "." ++ kv.1 ++ "=%s")
    let params ← marshalKwargs fields kwargs
    .ok (.executed assignments (params ++ literals))

/-! ### Predicate builder surface (operator overloads) -/

/-- Embeds `Field.__eq__` (src/cuneiform.py lines 439-440):
`Expression("=", [self, other])`. -/
def FieldSpec.eqOp (f : FieldSpec) (o : Operand) : Expr :=
  .node "=" [.field f, o]

/-- Embeds `Expression.__eq__` (src/cuneiform.py lines 516-517):
`Expression("=", [self, other])`. -/
def Expr.eqOp (e : Expr) (o : Operand) : Expr :=
  .node "=" [.expr e, o]

/-- Embeds `Expression.__and__` (src/cuneiform.py lines 510-511):
`Expression("AND", [self, other])`. -/
def Expr.andOp (a b : Expr) : Expr :=
  .node "AND" [.expr a, .expr b]

/-- Embeds `Expression.__or__` (src/cuneiform.py lines 513-514):
`Expression("OR", [self, other])`. -/
def Expr.orOp (a b : Expr) : Expr :=
  .node "OR" [.expr a, .expr b]

/-! ### Spec-side predicates used to state the claims -/

/-- The field-name component of an emitted migration instruction. -/
def Instruction.fieldName : Instruction → String
  | .dropColumn _ f => f
  | .addColumn _ f _ => f
  | .addForeignKey _ f _ => f

/-- Is this instruction a DROP COLUMN for the given field name? -/
def Instruction.isDropFor (name : String) : Instruction → Bool
  | .dropColumn _ f => f = name
  | _ => false

/-- Is this instruction an ADD COLUMN for the given field name? -/
def Instruction.isAddFor (name : String) : Instruction → Bool
  | .addColumn _ f _ => f = name
  | _ => false

/-- Is this instruction the foreign-key constraint pair for the given
field name? -/
def Instruction.isFkFor (name : String) : Instruction → Bool
  | .addForeignKey _ f _ => f = name
  | _ => false

/-- Does this instruction mention the given field name at all? -/
def Instruction.mentions (name : String) (i : Instruction) : Bool :=
  i.fieldName = name

/-- The claim's property for a field write during
construction-from-storage, stated from the spec's words: whenever the
instance is initializing, a field assignment leaves the dirty flag
unchanged. -/
def dirtyPreservedDuringInit (f : FieldSpec) (st : InstState) (v : PyVal) :
    Prop :=
  ∀ st', fieldSet f st v = Except.ok st' → st'.dirty = st.dirty

/-- The claim's set/iteration agreement, stated from the spec's words: the
value `count()` returns equals the number of Instances the same RecordSet
yields on iteration against the same database state (errors included). -/
def countMatchesIteration (db : Database) (rs : RecordSet) : Prop :=
  rsLen db rs = Except.map List.length (rsIterIds db rs)

/-- A concrete database state: the `town` table holds two rows. -/
def twoTownDb : Database :=
  { tables := fun t =>
      if t = "town" then
        [{ cells := [("id", PyVal.int 1), ("name", PyVal.str "Stuttgart")] },
         { cells := [("id", PyVal.int 2), ("name", PyVal.str "Karlsruhe")] }]
      else [] }

/-- A RecordSet like `Town.select(limit=1)`: a RecordSet over `town` with a result limit. -/
def limitedTowns : RecordSet :=
  { tableName := "town", limit := some 1 }

/-- A RecordSet like `Town.select()`: an unrestricted RecordSet over `town`. -/
def allTowns : RecordSet :=
  { tableName := "town" }

/-- A concrete persisted snapshot: fields `gone` and `kept`, no foreign
keys. -/
def oldSnapshotEx : SchemaState :=
  { fields := [("gone", { type := "int", options := [] }),
               ("kept", { type := "int", options := [] })]
    foreign_keys := [] }

/-- A concrete freshly derived state: `gone` removed, `fresh` added with a
foreign key to `town`. -/
def newSnapshotEx : SchemaState :=
  { fields := [("kept", { type := "int", options := [] }),
               ("fresh", { type := "int", options := [] })]
    foreign_keys := [("fresh", "town")] }

/-! ## Helper lemmas -/

/-- The `Except` monad propagates an error through `do`-bind. -/
theorem exceptBindError {ε α β : Type} (e : ε) (f : α → Except ε β) :
    (Except.error e >>= f) = Except.error e := rfl

/-- The `Except` monad feeds an `ok` result into the continuation. -/
theorem exceptBindOk {ε α β : Type} (a : α) (f : α → Except ε β) :
    (Except.ok a >>= f) = f a := rfl

/-- Overwrite-or-append on a dict leaves every other key's lookup
unchanged. -/
theorem lookup_dictSet_ne (vals : List (String × PyVal)) (k k' : String)
    (v : PyVal) (h : k' ≠ k) :
    (dictSet vals k v).lookup k' = vals.lookup k' := by
  induction vals with
  | nil =>
      have hb : (k' == k) = false := beq_eq_false_iff_ne.mpr h
      simp [dictSet, List.lookup, hb]
  | cons p rest ih =>
      obtain ⟨pk, pv⟩ := p
      by_cases hk : pk = k
      · subst hk
        have hb : (k' == pk) = false := beq_eq_false_iff_ne.mpr h
        simp [dictSet, List.lookup, hb]
      · simp only [dictSet, if_neg hk, List.lookup]
        by_cases hk' : k' = pk
        · simp [hk']
        · simp [hk', ih]

/-- Inserting into a sorted list grows its length by one. -/
theorem length_insertSorted (le : α → α → Bool) (x : α) (l : List α) :
    (insertSorted le x l).length = l.length + 1 := by
  induction l with
  | nil => rfl
  | cons y ys ih =>
      simp only [insertSorted]
      split <;> simp [ih]

/-- Insertion sort preserves length. -/
theorem length_sortByLe (le : α → α → Bool) (l : List α) :
    (sortByLe le l).length = l.length := by
  induction l with
  | nil => rfl
  | cons x xs ih => simp [sortByLe, length_insertSorted, ih]

/-- The modelled ORDER BY preserves the number of rows. -/
theorem length_orderRows (baseTable : String) (rows : List JoinedRow) :
    (orderRows baseTable rows).length = rows.length := by
  simp [orderRows, length_sortByLe]

/-! ## C1 — `save()` on a dirty identified instance -/

/-- C1: the claim says that for an instance with an identity and
`dirty=true`, `save()` performs an UPDATE over the explicitly-set
non-virtual fields and clears `dirty`.  The code cannot: the `assignments`
comprehension calls `self._fields[key]._options("virtual")`, and
`_options` is a dict, so the first explicitly-set non-`id` field raises
`TypeError: 'dict' object is not callable` (the parameter generator two
lines below correctly uses `_options.get("virtual")`, which shows the
intent).  Evaluated here on a dirty Town instance with `id=1` and a set
`name`. -/
theorem C1_update_path_raises_type_error :
    modelSave TownClass.fields
      { values := [("name", PyVal.str "Ludwigsburg"), ("id", PyVal.int 1)]
        dirty := true
        initializing := false } 99
      = Except.error PyErr.typeErrorDictNotCallable := by
  rfl

/-! ## C3 — dirty suppression during construction-from-storage -/

/-- C3 counterexample: the claim says a write while `initializing=true`
never changes `dirty`.  But `Field.__set__` only consults
`_initializing` inside the `if instance.id:` branch; on an instance whose
`id` is not yet set (every hydration write before the `id` column, and
every fresh construction), the `else` branch sets `dirty=True`
unconditionally.  Concretely: a first write of `name` during
initialization flips `dirty` from `False` to `True`. -/
theorem C3_counterexample_init_write_sets_dirty :
    ¬ dirtyPreservedDuringInit townNameField
        { values := [], dirty := false, initializing := true }
        (PyVal.str "Pforzheim") := by
  intro h
  have h2 := h
    { values := [("name", PyVal.str "Pforzheim")]
      dirty := true
      initializing := true } rfl
  simp at h2

/-- C3 amended: during construction-from-storage (`initializing=true`), a
field assignment to a field other than `id` causes no dirty transition
provided the instance's `id` is already set and truthy; without a truthy
`id`, the write marks the instance dirty even while initializing. -/
theorem C3_amended_dirty_preserved (f : FieldSpec) (st : InstState)
    (v : PyVal) (hinit : st.initializing = true)
    (hid : st.idTruthy = true) (hname : f.name ≠ "id") :
    ∀ st', fieldSet f st v = Except.ok st' → st'.dirty = st.dirty := by
  intro st' h
  unfold fieldSet at h
  split at h
  · exact (Except.ok.inj h) ▸ rfl
  · split at h
    · exact absurd h (by simp)
    · have hid2 : ({ st with values := dictSet st.values f.name v }
          : InstState).idTruthy = true := by
        unfold InstState.idTruthy at hid ⊢
        rw [lookup_dictSet_ne _ _ _ _ (Ne.symm hname)]
        exact hid
      rw [if_pos hid2] at h
      have hinit2 : ({ st with values := dictSet st.values f.name v }
          : InstState).initializing = true := hinit
      rw [if_pos hinit2] at h
      exact (Except.ok.inj h) ▸ rfl

/-- Witness for the amended C3: hydrating a Town whose `id=7` is already
set, writing `name` during initialization leaves `dirty` at `false`. -/
theorem C3_amended_dirty_preserved_witness :
    ({ values := [("id", PyVal.int 7), ("name", PyVal.str "Aalen")]
       dirty := false
       initializing := true } : InstState).dirty
    = ({ values := [("id", PyVal.int 7)]
         dirty := false
         initializing := true } : InstState).dirty :=
  C3_amended_dirty_preserved townNameField
    { values := [("id", PyVal.int 7)], dirty := false, initializing := true }
    (PyVal.str "Aalen") rfl (by decide) (by decide)
    _ rfl

/-! ## C9 — absent snapshot: DROP TABLE ... CASCADE before CREATE TABLE -/

/-- C9: when no snapshot is persisted for the table, `ensure_db_state`
performs `Model.drop` — `DROP TABLE IF EXISTS <table> CASCADE` — first,
and `Model.create` — `CREATE TABLE IF NOT EXISTS` plus the foreign-key
constraints — only after it, so a pre-existing table of that name (and its
dependents, via CASCADE) is destroyed before the new table is created. -/
theorem C9_absent_snapshot_drops_then_creates (table : String)
    (s : SchemaState) :
    (ensure_db_state table Option.none s).actions
      = DbAction.dropTableIfExistsCascade table
        :: DbAction.createTableIfNotExists table
             (s.fields.map (fun nf => (nf.1, nf.2.type)))
        :: s.foreign_keys.map
             (fun fk => DbAction.addConstraint table fk.1 fk.2) := by
  rfl

/-! ## C6 — two-hop forward join traversal -/

/-- C6: `Customer.addr.town.name == "X"` (the `addr` field holds the
customer's address reference) builds, through `Field.__getattr__` and then
`Expression.__getattr__`, a predicate that compiles to exactly two
JoinEdges: first `(customer, address, addr, id)` — from the customer
table's address column to the address table's `id` — then
`(address, town, town, id)` — from the address table's town column to the
town table's `id` — in that order, rooted at `customer`. -/
theorem C6_two_hop_join_edges :
    (do
      let e1 ← fieldGetattr demoRegistry customerAddrField "town"
      let e2 ← exprGetattr demoRegistry e1 "name"
      (e2.eqOp (Operand.lit (PyVal.str "X"))).to_sql)
      = Except.ok ("town.name = %s", [PyVal.str "X"],
          [{ source := "customer", foreign := "address",
             sourceColumn := "addr", foreignColumn := "id" },
           { source := "address", foreign := "town",
             sourceColumn := "town", foreignColumn := "id" }]) := by
  rfl

/-! ## C7 — assignment validation in `Field.__set__` -/

/-- C7 counterexample: the claim says assignment succeeds (stores) exactly
when the value is an instance of the declared type *or is `None`*.  But
`Field.__set__` runs `assert isinstance(value, self._type)`, and
`isinstance(None, T)` is false, so assigning `None` over a different
stored value raises `AssertionError` instead of storing: here
`house_number` currently holds `15` and the write of `None` fails. -/
theorem C7_counterexample_none_rejected :
    fieldSet addressHouseNumberField
      { values := [("house_number", PyVal.int 15)]
        dirty := false
        initializing := false }
      PyVal.none
      = Except.error PyErr.assertionError := by
  rfl

/-- C7 amended: `set(instance, value)` is a no-op when `value` compares
equal to the currently stored value (an unset field reads as `None`, so
re-assigning `None` there is a no-op); otherwise it stores the value if
and only if the value is an `isinstance` of the field's declared semantic
type, and raises `AssertionError` for everything else — `None`
included. -/
theorem C7_amended_set_semantics (f : FieldSpec) (st : InstState)
    (v : PyVal) :
    (pyEq v (st.getValue f.name) = true → fieldSet f st v = Except.ok st)
    ∧ (pyEq v (st.getValue f.name) = false → isinstance v f.type = false →
        fieldSet f st v = Except.error PyErr.assertionError)
    ∧ (pyEq v (st.getValue f.name) = false → isinstance v f.type = true →
        ∃ st', fieldSet f st v = Except.ok st'
          ∧ st'.values = dictSet st.values f.name v) := by
  refine ⟨fun h1 => ?_, fun h1 h2 => ?_, fun h1 h2 => ?_⟩
  · simp [fieldSet, h1]
  · simp [fieldSet, h1, h2]
  · unfold fieldSet
    rw [if_neg (by simp [h1]), if_neg (by simp [h2])]
    dsimp only
    split
    · split
      · exact ⟨_, rfl, rfl⟩
      · exact ⟨_, rfl, rfl⟩
    · exact ⟨_, rfl, rfl⟩

/-- Witness for the amended C7: re-assigning the current value `15` to
`house_number` is a no-op that returns the state unchanged. -/
theorem C7_amended_set_semantics_witness :
    fieldSet addressHouseNumberField
      { values := [("house_number", PyVal.int 15)]
        dirty := false
        initializing := false }
      (PyVal.int 15)
      = Except.ok
          { values := [("house_number", PyVal.int 15)]
            dirty := false
            initializing := false } :=
  (C7_amended_set_semantics addressHouseNumberField
    { values := [("house_number", PyVal.int 15)]
      dirty := false
      initializing := false }
    (PyVal.int 15)).1 (by decide)

/-! ## C8 — storage marshalling round-trip -/

/-- C8: for every value of a primitive (`str`/`int`) or enumerated-type
field — `None` included — `fromStorage(toStorage(v)) == v`: `to_sql`
followed by `from_sql` returns the value unchanged. -/
theorem C8_storage_round_trip (t : FieldType) (v : PyVal)
    (h : wellTyped v t = true) :
    (fieldToSql t v).bind (fieldFromSql t) = Except.ok v := by
  cases v <;> cases t <;>
    simp_all [wellTyped, fieldToSql, fieldFromSql, Except.bind]

/-- Witness for C8: the `CompanyType.KG` member (value 3) round-trips
through an enum-typed field's marshalling. -/
theorem C8_storage_round_trip_witness :
    wellTyped (PyVal.enumMem "CompanyType" 3)
        (FieldType.tEnum "CompanyType" [1, 2, 3, 4]) = true
    ∧ (fieldToSql (FieldType.tEnum "CompanyType" [1, 2, 3, 4])
          (PyVal.enumMem "CompanyType" 3)).bind
        (fieldFromSql (FieldType.tEnum "CompanyType" [1, 2, 3, 4]))
        = Except.ok (PyVal.enumMem "CompanyType" 3) :=
  ⟨by decide, C8_storage_round_trip _ _ (by decide)⟩

/-! ## C10 — bulk `update()` rejects the `id` field -/

/-- C10: for every RecordSet, every field table and every keyword map,
whenever the update's column map contains the key `id`,
`RecordSet.update` raises (the `assert "id" not in kwargs` fires, or the
WHERE compilation already failed) and never reaches statement execution:
no `ok` outcome is possible. -/
theorem C10_update_rejects_id (rs : RecordSet) (fields : List FieldSpec)
    (kwargs : List (String × PyVal))
    (h : (kwargs.lookup "id").isSome = true) :
    ∀ o, rsUpdate rs fields kwargs ≠ Except.ok o := by
  intro o
  unfold rsUpdate
  cases hw : resolveWhere rs with
  | error e => simp [hw, exceptBindError]
  | ok triple => simp [hw, h, exceptBindOk]

/-- Witness for C10: `Customer.select().update(id=5)` fails before issuing
a statement. -/
theorem C10_update_rejects_id_witness :
    ((([("id", PyVal.int 5)] : List (String × PyVal)).lookup "id").isSome
      = true)
    ∧ ∀ o, rsUpdate { tableName := "customer" } CustomerClass.fields
        [("id", PyVal.int 5)] ≠ Except.ok o :=
  ⟨by decide,
   C10_update_rejects_id { tableName := "customer" } CustomerClass.fields
     [("id", PyVal.int 5)] (by decide)⟩

/-! ## C2 — `count()` versus iteration -/

/-- C2 counterexample: the claim quantifies over "any limit and ordering",
but `__len__` emits `SELECT COUNT(*)` with the WHERE/JOIN clause only — no
LIMIT — while `__iter__` appends `LIMIT n`.  Over a two-row `town` table,
`Town.select(limit=1)` yields one Instance on iteration but `count()`
returns 2. -/
theorem C2_counterexample_limit_breaks_agreement :
    ¬ countMatchesIteration twoTownDb limitedTowns := by
  intro h
  have h2 : (Except.ok 2 : Except PyErr Nat) = Except.ok 1 := h
  simp at h2

/-- C2 amended: for every RecordSet whose limit is not set (or set to the
falsy `0`, which emits no LIMIT clause), and any predicate and ordering,
`count()` agrees with the number of Instances iteration yields against the
same database state — ORDER BY only permutes the matched rows, and both
statements share the same compiled WHERE/JOIN clause. -/
theorem C2_amended_count_agrees (db : Database) (rs : RecordSet)
    (h : limitTruthy rs.limit = false) :
    countMatchesIteration db rs := by
  unfold countMatchesIteration rsLen rsIterIds
  cases hm : rsMatching db rs with
  | error e => simp [hm, Except.map, exceptBindError]
  | ok rows =>
      simp only [hm, h, Except.map, exceptBindOk, Bool.false_eq_true,
        if_false]
      cases rs.order_by with
      | none => simp
      | some k => simp [length_orderRows]

/-- Witness for the amended C2: an unlimited `Town.select()` over the
two-row table counts 2 and iterates 2. -/
theorem C2_amended_count_agrees_witness :
    limitTruthy allTowns.limit = false
    ∧ countMatchesIteration twoTownDb allTowns :=
  ⟨by decide, C2_amended_count_agrees twoTownDb allTowns (by decide)⟩

/-! ## C5 — expression compilation -/

/-- C5: `(fieldA == 1) AND (fieldB == 2)` compiles to
`"t.a = %s AND t.b = %s"` with parameters `[1, 2]` in that order; and in
general compilation is left-to-right — a two-operand node concatenates its
operands' fragments around the operator, a Field operand compiles to its
qualified column reference with no parameters, and a literal operand is
replaced by the `%s` placeholder and appended (converted) to the parameter
list, sub-results concatenated in traversal order. -/
theorem C5_expression_compilation :
    (((FieldSpec.eqOp { name := "a", type := .tInt, ownerTable := "t" }
          (Operand.lit (PyVal.int 1))).andOp
        (FieldSpec.eqOp { name := "b", type := .tInt, ownerTable := "t" }
          (Operand.lit (PyVal.int 2)))).to_sql
      = Except.ok ("t.a = %s AND t.b = %s", [PyVal.int 1, PyVal.int 2], []))
    ∧ (∀ (op : String) (o1 o2 : Operand) (s1 s2 : String)
          (l1 l2 : List PyVal) (j1 j2 : List JoinEdge),
        compileOperand o1 = Except.ok (s1, l1, j1) →
        compileOperand o2 = Except.ok (s2, l2, j2) →
        (Expr.node op [o1, o2]).to_sql
          = Except.ok (s1 ++ " " ++ op ++ " " ++ s2, l1 ++ l2, j1 ++ j2))
    ∧ (∀ f : FieldSpec,
        compileOperand (Operand.field f) = Except.ok (f.columnRef, [], []))
    ∧ (∀ v : PyVal,
        compileOperand (Operand.lit v)
          = Except.ok ("%s", [litToParam v], [])) := by
  refine ⟨rfl, fun op o1 o2 s1 s2 l1 l2 j1 j2 h1 h2 => ?_, fun f => rfl,
    fun v => rfl⟩
  show (do
      let (frags, lits, joins) ← compileOperands [o1, o2]
      match frags with
      | [a] => Except.ok (op ++ " " ++ a, lits, joins)
      | [a, b] => Except.ok (a ++ " " ++ op ++ " " ++ b, lits, joins)
      | _ => Except.error (.runtimeError "can't have more than 2 operands"))
    = Except.ok (s1 ++ " " ++ op ++ " " ++ s2, l1 ++ l2, j1 ++ j2)
  rw [show compileOperands [o1, o2] = Except.ok ([s1, s2], l1 ++ l2, j1 ++ j2)
    from by simp [compileOperands, h1, h2, exceptBindOk]]
  rfl

/-- Witness for C5's general part: applied at `op = "="`, a Field operand
and a literal operand. -/
theorem C5_expression_compilation_witness :
    (Expr.node "=" [Operand.field customerNameField,
        Operand.lit (PyVal.str "solute")]).to_sql
      = Except.ok ("customer.name" ++ " " ++ "=" ++ " " ++ "%s",
          ([] : List PyVal) ++ [PyVal.str "solute"],
          ([] : List JoinEdge) ++ []) :=
  C5_expression_compilation.2.1 "=" (Operand.field customerNameField)
    (Operand.lit (PyVal.str "solute")) "customer.name" "%s" []
    [PyVal.str "solute"] [] [] (by rfl) (by rfl)

/-! ## C4 — the migration differ -/

/-- A successful lookup means the key occurs among the mapped keys. -/
theorem lookup_isSome_mem {β : Type} (l : List (String × β)) (a : String)
    (h : (l.lookup a).isSome = true) : a ∈ l.map Prod.fst := by
  induction l with
  | nil => simp [List.lookup] at h
  | cons p rest ih =>
      obtain ⟨pk, pv⟩ := p
      by_cases he : a = pk
      · simp [he]
      · have hb : (a == pk) = false := beq_eq_false_iff_ne.mpr he
        rw [List.lookup, hb] at h
        exact List.mem_cons_of_mem _ (ih h)

/-- If every block of a flatMap has zero matches, the whole has zero. -/
theorem countP_flatMap_zero {β : Type} (l : List β)
    (g : β → List Instruction) (p : Instruction → Bool)
    (h : ∀ n ∈ l, (g n).countP p = 0) :
    (l.flatMap g).countP p = 0 := by
  induction l with
  | nil => rfl
  | cons x xs ih =>
      rw [List.flatMap_cons, List.countP_append,
        h x (List.mem_cons_self x xs),
        ih (fun n hn => h n (List.mem_cons_of_mem x hn))]

/-- Over a duplicate-free index list, a flatMap's match count reduces to
the single block of the one index whose block can match. -/
theorem countP_flatMap_single {β : Type} (l : List β)
    (g : β → List Instruction) (p : Instruction → Bool) (name : β)
    (hnd : l.Nodup) (hmem : name ∈ l)
    (hother : ∀ n ∈ l, n ≠ name → (g n).countP p = 0) :
    (l.flatMap g).countP p = (g name).countP p := by
  induction l with
  | nil => cases hmem
  | cons x xs ih =>
      rw [List.flatMap_cons, List.countP_append]
      rcases List.mem_cons.mp hmem with rfl | hmem'
      · rw [countP_flatMap_zero xs g p
          (fun n hn => hother n (List.mem_cons_of_mem _ hn)
            (fun he => (List.nodup_cons.mp hnd).1 (he ▸ hn)))]
        exact Nat.add_zero _
      · rw [hother x (List.mem_cons_self x xs)
            (fun he => (List.nodup_cons.mp hnd).1 (he ▸ hmem')),
          Nat.zero_add]
        exact ih (List.nodup_cons.mp hnd).2 hmem'
          (fun n hn hne => hother n (List.mem_cons_of_mem _ hn) hne)

/-- Every instruction the per-name migration block emits names that
field. -/
theorem migrateField_mentions (table : String) (old new : SchemaState)
    (n : String) :
    ∀ i ∈ migrateField table old new n, i.fieldName = n := by
  intro i hi
  unfold migrateField at hi
  rw [List.mem_append] at hi
  rcases hi with hi | hi
  · split at hi <;> simp_all [Instruction.fieldName]
  · split at hi
    · rw [List.singleton_append, List.mem_cons] at hi
      rcases hi with rfl | hi
      · rfl
      · cases hfk : new.foreign_keys.lookup n <;> rw [hfk] at hi
        · cases hi
        · rw [List.mem_singleton] at hi
          subst hi
          rfl
    · simp at hi

/-- A per-name block for a different name contributes nothing to a count
of instructions about `name`. -/
theorem migrateField_countP_other (table : String) (old new : SchemaState)
    (p : Instruction → Bool) (name n : String)
    (hp : ∀ i, p i = true → i.fieldName = name) (hne : n ≠ name) :
    (migrateField table old new n).countP p = 0 := by
  rw [List.countP_eq_zero]
  intro i hi hpi
  exact hne ((migrateField_mentions table old new n i hi) ▸ hp i hpi)

/-- The block of a name present only in the old state is a single DROP
COLUMN. -/
theorem migrateField_drop_case (table : String) (old new : SchemaState)
    (name : String) (ho : (old.fields.lookup name).isSome = true)
    (hn : (new.fields.lookup name).isNone = true) :
    migrateField table old new name = [Instruction.dropColumn table name] := by
  have ho' : (old.fields.lookup name).isNone = false := by
    cases h : old.fields.lookup name <;> simp_all
  simp [migrateField, hn, ho']

/-- The block of a name present only in the new state is one ADD COLUMN
followed by its foreign-key constraint when the new state lists one. -/
theorem migrateField_add_case (table : String) (old new : SchemaState)
    (name : String) (ho : (old.fields.lookup name).isNone = true)
    (hn : (new.fields.lookup name).isSome = true) :
    migrateField table old new name
      = Instruction.addColumn table name
          (match new.fields.lookup name with
           | some fs => fs.type
           | Option.none => "")
        :: (match new.foreign_keys.lookup name with
            | some ref => [Instruction.addForeignKey table name ref]
            | Option.none => []) := by
  have hn' : (new.fields.lookup name).isNone = false := by
    cases h : new.fields.lookup name <;> simp_all
  simp [migrateField, ho, hn']

/-- The block of a name present in both states is empty. -/
theorem migrateField_both_case (table : String) (old new : SchemaState)
    (name : String) (ho : (old.fields.lookup name).isSome = true)
    (hn : (new.fields.lookup name).isSome = true) :
    migrateField table old new name = [] := by
  have ho' : (old.fields.lookup name).isNone = false := by
    cases h : old.fields.lookup name <;> simp_all
  have hn' : (new.fields.lookup name).isNone = false := by
    cases h : new.fields.lookup name <;> simp_all
  simp [migrateField, ho', hn']

/-- A DROP instruction's name is its field name. -/
theorem isDropFor_fieldName (name : String) :
    ∀ i, Instruction.isDropFor name i = true → i.fieldName = name := by
  intro i h
  cases i <;> simp_all [Instruction.isDropFor, Instruction.fieldName]

/-- An ADD instruction's name is its field name. -/
theorem isAddFor_fieldName (name : String) :
    ∀ i, Instruction.isAddFor name i = true → i.fieldName = name := by
  intro i h
  cases i <;> simp_all [Instruction.isAddFor, Instruction.fieldName]

/-- A foreign-key instruction's name is its field name. -/
theorem isFkFor_fieldName (name : String) :
    ∀ i, Instruction.isFkFor name i = true → i.fieldName = name := by
  intro i h
  cases i <;> simp_all [Instruction.isFkFor, Instruction.fieldName]

/-- The predicate `mentions` names the field name by definition. -/
theorem mentions_fieldName (name : String) :
    ∀ i, Instruction.mentions name i = true → i.fieldName = name := by
  intro i h
  simp_all [Instruction.mentions]

/-- The union of field names the migration loop iterates over. -/
theorem mem_migrate_union_of_old (old new : SchemaState) (name : String)
    (ho : (old.fields.lookup name).isSome = true) :
    name ∈ ((old.fields.map Prod.fst) ++ (new.fields.map Prod.fst)).dedup :=
  List.mem_dedup.mpr
    (List.mem_append_left _ (lookup_isSome_mem old.fields name ho))

/-- The union also contains every name of the new state. -/
theorem mem_migrate_union_of_new (old new : SchemaState) (name : String)
    (hn : (new.fields.lookup name).isSome = true) :
    name ∈ ((old.fields.map Prod.fst) ++ (new.fields.map Prod.fst)).dedup :=
  List.mem_dedup.mpr
    (List.mem_append_right _ (lookup_isSome_mem new.fields name hn))

/-- C4: when the snapshot and the derived state differ, the migration
batch, taken over the union of field names, contains exactly one DROP
COLUMN for each name present only in the old state, exactly one ADD COLUMN
(plus exactly one foreign-key constraint when the new state lists one) for
each name present only in the new state, and no instruction at all for a
name present in both states (changed type or options go undetected); and
when the two states are equal, the run executes nothing and does not
rewrite the snapshot. -/
theorem C4_migration_symmetric_diff (table : String) (old new : SchemaState)
    (name : String) :
    (((old.fields.lookup name).isSome = true
        ∧ (new.fields.lookup name).isNone = true) →
      (migrate table old new).countP (Instruction.isDropFor name) = 1
      ∧ (migrate table old new).countP (Instruction.isAddFor name) = 0)
    ∧ (((old.fields.lookup name).isNone = true
        ∧ (new.fields.lookup name).isSome = true) →
      (migrate table old new).countP (Instruction.isAddFor name) = 1
      ∧ (migrate table old new).countP (Instruction.isDropFor name) = 0
      ∧ (migrate table old new).countP (Instruction.isFkFor name)
          = (if (new.foreign_keys.lookup name).isSome then 1 else 0))
    ∧ (((old.fields.lookup name).isSome = true
        ∧ (new.fields.lookup name).isSome = true) →
      (migrate table old new).countP (Instruction.mentions name) = 0)
    ∧ ensure_db_state table (some new) new
        = { actions := [], savedSnapshot := Option.none } := by
  refine ⟨?_, ?_, ?_, by simp [ensure_db_state]⟩
  · intro h
    obtain ⟨ho, hn⟩ := h
    have hmem := mem_migrate_union_of_old old new name ho
    have hblock := migrateField_drop_case table old new name ho hn
    constructor
    · rw [migrate, countP_flatMap_single _ _ _ name (List.nodup_dedup _)
          hmem (fun n _ hne => migrateField_countP_other table old new _
            name n (isDropFor_fieldName name) hne), hblock]
      simp [List.countP_cons, Instruction.isDropFor]
    · rw [migrate, countP_flatMap_single _ _ _ name (List.nodup_dedup _)
          hmem (fun n _ hne => migrateField_countP_other table old new _
            name n (isAddFor_fieldName name) hne), hblock]
      simp [List.countP_cons, Instruction.isAddFor]
  · intro h
    obtain ⟨ho, hn⟩ := h
    have hmem := mem_migrate_union_of_new old new name hn
    have hblock := migrateField_add_case table old new name ho hn
    refine ⟨?_, ?_, ?_⟩
    · rw [migrate, countP_flatMap_single _ _ _ name (List.nodup_dedup _)
          hmem (fun n _ hne => migrateField_countP_other table old new _
            name n (isAddFor_fieldName name) hne), hblock]
      cases hfk : new.foreign_keys.lookup name <;>
        simp [List.countP_cons, Instruction.isAddFor, Instruction.isFkFor]
    · rw [migrate, countP_flatMap_single _ _ _ name (List.nodup_dedup _)
          hmem (fun n _ hne => migrateField_countP_other table old new _
            name n (isDropFor_fieldName name) hne), hblock]
      cases hfk : new.foreign_keys.lookup name <;>
        simp [List.countP_cons, Instruction.isDropFor, Instruction.isFkFor]
    · rw [migrate, countP_flatMap_single _ _ _ name (List.nodup_dedup _)
          hmem (fun n _ hne => migrateField_countP_other table old new _
            name n (isFkFor_fieldName name) hne), hblock]
      cases hfk : new.foreign_keys.lookup name <;>
        simp [List.countP_cons, Instruction.isFkFor, Instruction.isAddFor]
  · intro h
    obtain ⟨ho, hn⟩ := h
    have hmem := mem_migrate_union_of_old old new name ho
    have hblock := migrateField_both_case table old new name ho hn
    rw [migrate, countP_flatMap_single _ _ _ name (List.nodup_dedup _)
        hmem (fun n _ hne => migrateField_countP_other table old new _
          name n (mentions_fieldName name) hne), hblock]
    rfl

/-- Witness for C4: old snapshot `{gone, kept}` versus new state
`{kept, fresh (FK town)}` emits exactly one DROP for `gone` and exactly
one ADD for `fresh`. -/
theorem C4_migration_symmetric_diff_witness :
    (migrate "customer" oldSnapshotEx newSnapshotEx).countP
        (Instruction.isDropFor "gone") = 1
    ∧ (migrate "customer" oldSnapshotEx newSnapshotEx).countP
        (Instruction.isAddFor "fresh") = 1 :=
  ⟨((C4_migration_symmetric_diff "customer" oldSnapshotEx newSnapshotEx
      "gone").1 ⟨by decide, by decide⟩).1,
   ((C4_migration_symmetric_diff "customer" oldSnapshotEx newSnapshotEx
      "fresh").2.1 ⟨by decide, by decide⟩).1⟩

end Cuneiform
